/-
Verification of the real-time voice transport and codec pipeline of
`info_frontend/components/voice/voice-client.tsx` (LombardiaAgent).

The component's post-connect behaviour is a single-threaded event loop:
microphone capture callbacks, WebSocket message events, mute toggles and
teardown all mutate closure-captured refs.  We embed it shallowly:

* samples are rationals (the JS engine computes the codec's products and
  the division by 0x8000 exactly; the division by 0x7fff rounds at
  2^-53, far below every bound stated here, so ℚ is faithful at the
  granularity of the spec's claims);
* a JS `Int16Array` store truncates toward zero (ToInt16 of the ECMA
  spec); the clamp keeps every value inside [-0x8000, 0x7fff], so the
  modular wrap of ToInt16 never fires and is omitted;
* the component's mutable state (React state, refs, installed handler
  closures) is one explicit record, and each event-loop turn is a step
  function on it.  A `useCallback` closure installed at connect time
  keeps the flag values of that render; the record therefore carries
  both the current flags and the connect-time captured ones.
-/
import Mathlib

namespace VoiceClient

/-- Truncation toward zero on ℚ, the conversion a JS `Int16Array` store
applies to a number already in range (ECMA ToInt16 without the wrap). -/
def truncToZero (q : ℚ) : ℤ :=
  if q < 0 then ⌈q⌉ else ⌊q⌋

/-- One sample of `float32ToInt16` (voice-client.tsx lines 101-103):
`const s = Math.max(-1, Math.min(1, x)); s < 0 ? s * 0x8000 : s * 0x7fff`,
stored into an `Int16Array` slot (truncation toward zero). -/
def int16OfSample (x : ℚ) : ℤ :=
  let s : ℚ := max (-1) (min 1 x)
  if s < 0 then truncToZero (s * 32768) else truncToZero (s * 32767)

/-- `float32ToInt16` (voice-client.tsx lines 99-106): samplewise loop
building an equal-length fixed-point block. -/
def float32ToInt16 : List ℚ → List ℤ
  | [] => []
  | x :: xs => int16OfSample x :: float32ToInt16 xs

/-- One sample of `int16ToFloat32` (voice-client.tsx line 112):
`int16Array[i] / (int16Array[i] < 0 ? 0x8000 : 0x7fff)`. -/
def sampleOfInt16 (n : ℤ) : ℚ :=
  if n < 0 then (n : ℚ) / 32768 else (n : ℚ) / 32767

/-- `int16ToFloat32` (voice-client.tsx lines 109-115): samplewise loop
building an equal-length float block. -/
def int16ToFloat32 : List ℤ → List ℚ
  | [] => []
  | n :: ns => sampleOfInt16 n :: int16ToFloat32 ns

/-- `inputData.reduce((sum, val) => sum + val*val, 0)` (voice-client.tsx
lines 213-216). -/
def sumSquares (xs : List ℚ) : ℚ :=
  (xs.map fun v => v * v).sum

/-- The user-speaking classification of `processor.onaudioprocess`
(voice-client.tsx line 217): `Math.sqrt(sumSquares / length) > 0.01`.
Both sides are nonnegative, so the comparison is stated in squared form,
which is exact on ℚ; for an empty block JS compares `NaN > 0.01` (false)
and here `0 / 0 = 0 > 1/10000` is also false. -/
def userSpeakingOf (xs : List ℚ) : Bool :=
  decide (sumSquares xs / (xs.length : ℚ) > 1 / 10000)

/-- The mutable state of one connected `VoiceClient` session: React state
flags, the closure-captured refs, the flag values the installed handlers
(`processor.onaudioprocess`, `ws.onmessage` and the `playAudioQueue`
instance it references) closed over when `connect` ran, and the
observables of the run (messages sent, renders started, drain-loop
instances currently awaiting a render's `onended`). -/
structure ClientState where
  wsRefSome : Bool
  streamSome : Bool
  ctxSome : Bool
  wsCloseCount : ℕ
  trackStopCount : ℕ
  ctxCloseCount : ℕ
  wsOpen : Bool
  isConnected : Bool
  isConnecting : Bool
  isMuted : Bool
  isSpeakerMuted : Bool
  isAgentSpeaking : Bool
  isUserSpeaking : Bool
  capturedMuted : Bool
  capturedSpeakerMuted : Bool
  audioQueue : List (List ℚ)
  isPlaying : Bool
  sent : List (List ℤ)
  rendered : List (List ℚ)
  inFlight : List Bool
deriving DecidableEq

/-- `cleanup` (voice-client.tsx lines 67-96): close each still-held handle
(null-guarded, so a handle is closed at most once — the counters record
every close/stop call), clear the queue and the playing guard, reset the
connection and speaking flags.  The mute flags are not touched. -/
def cleanup (s : ClientState) : ClientState :=
  { s with
    wsRefSome := false
    wsOpen := false
    wsCloseCount := if s.wsRefSome then s.wsCloseCount + 1 else s.wsCloseCount
    streamSome := false
    trackStopCount := if s.streamSome then s.trackStopCount + 1 else s.trackStopCount
    ctxSome := false
    ctxCloseCount := if s.ctxSome then s.ctxCloseCount + 1 else s.ctxCloseCount
    audioQueue := []
    isPlaying := false
    isConnected := false
    isConnecting := false
    isAgentSpeaking := false
    isUserSpeaking := false }

/-- The epilogue of `playAudioQueue` (voice-client.tsx lines 152-153),
run when its while loop exits. -/
def exitLoop (s : ClientState) : ClientState :=
  { s with isPlaying := false, isAgentSpeaking := false }

/-- One resumption of the while loop of a `playAudioQueue` instance whose
closure captured `isSpeakerMuted = c` (voice-client.tsx lines 131-153):
re-check the loop condition, shift the next block, bail out if the audio
context is gone, otherwise start its render and suspend until `onended`
(the suspended instance is appended to `inFlight`). -/
def loopStep (c : Bool) (s : ClientState) : ClientState :=
  if c then exitLoop s
  else
    match s.audioQueue with
    | [] => exitLoop s
    | b :: rest =>
        if s.ctxSome then
          { s with
            audioQueue := rest
            rendered := s.rendered ++ [b]
            inFlight := s.inFlight ++ [c] }
        else exitLoop { s with audioQueue := rest }

/-- A call of a `playAudioQueue` instance whose closure captured
`isSpeakerMuted = c` (voice-client.tsx lines 118-130): the entry guard,
then set the playing guard and the agent-speaking flag and enter the
while loop. -/
def startDrain (c : Bool) (s : ClientState) : ClientState :=
  if s.isPlaying || s.audioQueue.isEmpty || !s.ctxSome || c then s
  else loopStep c { s with isPlaying := true, isAgentSpeaking := true }

/-- One event-loop turn of the connected component. -/
inductive Event where
  | msgArrive (b : List ℤ)
  | renderFinished (i : ℕ)
  | captureBlock (xs : List ℚ)
  | toggleMute
  | toggleSpeaker
  | disconnect
  | transportClosed
  | transportError
deriving DecidableEq

/-- The event-loop semantics of the installed handlers.
`msgArrive` is `ws.onmessage` (lines 226-234): decode and push, then call
the connect-time `playAudioQueue` instance.  `renderFinished` resumes the
drain-loop instance whose render completed.  `captureBlock` is
`processor.onaudioprocess` (lines 206-219) with its connect-time
`isMuted`.  `toggleMute`/`toggleSpeaker` are lines 275-291; a toggle
re-renders the component (creating fresh closures) but never replaces the
installed handlers, so the captured flags are unchanged.  `disconnect`,
`transportClosed` and `transportError` all run `cleanup`
(lines 236-245, 270-272). -/
def step (s : ClientState) : Event → ClientState
  | .msgArrive b =>
      if s.wsOpen then
        startDrain s.capturedSpeakerMuted
          { s with audioQueue := s.audioQueue ++ [int16ToFloat32 b] }
      else s
  | .renderFinished i =>
      match s.inFlight[i]? with
      | some c => loopStep c { s with inFlight := s.inFlight.eraseIdx i }
      | none => s
  | .captureBlock xs =>
      if s.wsOpen && !s.capturedMuted then
        { s with
          sent := s.sent ++ [float32ToInt16 xs]
          isUserSpeaking := userSpeakingOf xs }
      else s
  | .toggleMute => { s with isMuted := !s.isMuted }
  | .toggleSpeaker =>
      if s.isSpeakerMuted then { s with isSpeakerMuted := false }
      else
        { s with
          isSpeakerMuted := true
          audioQueue := []
          isPlaying := false
          isAgentSpeaking := false }
  | .disconnect => cleanup s
  | .transportClosed => cleanup s
  | .transportError => cleanup s

/-- The state right after `ws.onopen` ran for a session whose connect-time
mute flags were `m` (microphone) and `sp` (speaker): all handles held,
socket open, queue empty, no drain loop, and the installed handlers
captured `m` and `sp`. -/
def connectState (m sp : Bool) : ClientState where
  wsRefSome := true
  streamSome := true
  ctxSome := true
  wsCloseCount := 0
  trackStopCount := 0
  ctxCloseCount := 0
  wsOpen := true
  isConnected := true
  isConnecting := false
  isMuted := m
  isSpeakerMuted := sp
  isAgentSpeaking := false
  isUserSpeaking := false
  capturedMuted := m
  capturedSpeakerMuted := sp
  audioQueue := []
  isPlaying := false
  sent := []
  rendered := []
  inFlight := []

/-- Running a sequence of event-loop turns. -/
def run (s : ClientState) (evs : List Event) : ClientState :=
  evs.foldl step s

/-- The encoder the spec's words describe: clamp to [-1, 1], scale the
negative samples by 0x8000 and the others by 0x7fff, and round to the
NEAREST integer.  Stated only to be compared with `int16OfSample`, which
truncates. -/
def int16OfSampleRounded (x : ℚ) : ℤ :=
  let s : ℚ := max (-1) (min 1 x)
  if s < 0 then round (s * 32768) else round (s * 32767)

/-- Samplewise version of `int16OfSampleRounded`, the spec's reading of
`float32ToInt16`. -/
def float32ToInt16Rounded (xs : List ℚ) : List ℤ :=
  xs.map int16OfSampleRounded

/-- Events of a session in which the speaker-mute button is never pressed
and no teardown happens: message arrivals, render completions, capture
callbacks and microphone-mute toggles. -/
def steadyEvent : Event → Bool
  | .msgArrive _ => true
  | .renderFinished _ => true
  | .captureBlock _ => true
  | .toggleMute => true
  | _ => false

/-- The decoded payloads of the inbound binary messages of a trace, in
arrival order. -/
def decodedArrivals (evs : List Event) : List (List ℚ) :=
  evs.filterMap fun e =>
    match e with
    | .msgArrive b => some (int16ToFloat32 b)
    | _ => none

/-- The three event-loop turns that run `cleanup`: an explicit
`disconnect()`, `ws.onclose` and `ws.onerror`. -/
def isTeardown : Event → Bool
  | .disconnect => true
  | .transportClosed => true
  | .transportError => true
  | _ => false

/-- The current `isMuted` value after one more event. -/
def mutAfter (e : Event) (b : Bool) : Bool :=
  match e with
  | .toggleMute => !b
  | _ => b

/-- The parity of microphone-mute toggles along a trace, starting from
flag value `b`. -/
def mutFlip (b : Bool) : List Event → Bool
  | [] => b
  | .toggleMute :: es => mutFlip (!b) es
  | _ :: es => mutFlip b es

/-- Invariant of a connected session whose speaker was unmuted at connect
time and in which only `steadyEvent`s occur: the socket and context stay
alive, at most one drain-loop instance is suspended (so at most one
render is in flight), the playing guard is set exactly while one is, and
the queue can only be non-empty while a drain loop is active. -/
structure DrainInv (s : ClientState) : Prop where
  ws : s.wsOpen = true
  ctx : s.ctxSome = true
  cap : s.capturedSpeakerMuted = false
  flight : s.inFlight = [] ∨ s.inFlight = [false]
  playing : s.isPlaying = true ↔ s.inFlight ≠ []
  queueEmpty : s.inFlight = [] → s.audioQueue = []

lemma clamp_eq_self {x : ℚ} (h1 : -1 ≤ x) (h2 : x ≤ 1) :
    max (-1) (min 1 x) = x := by
  rw [min_eq_right h2, max_eq_right h1]

lemma truncToZero_of_nonneg {q : ℚ} (h : 0 ≤ q) : truncToZero q = ⌊q⌋ := by
  simp [truncToZero, not_lt.mpr h]

lemma truncToZero_of_neg {q : ℚ} (h : q < 0) : truncToZero q = ⌈q⌉ := by
  simp [truncToZero, h]

/-- C2: for every sample x ∈ [-1, 1], one encode-decode round trip moves
it by at most one quantization step 1/32767.  (`int16OfSample` and
`sampleOfInt16` are the samplewise bodies of `float32ToInt16` and
`int16ToFloat32`; both list functions apply them pointwise.) -/
theorem roundTrip_error_le (x : ℚ) (h1 : -1 ≤ x) (h2 : x ≤ 1) :
    |sampleOfInt16 (int16OfSample x) - x| ≤ 1 / 32767 := by
  have hclamp : max (-1) (min 1 x) = x := clamp_eq_self h1 h2
  rw [int16OfSample]
  simp only [hclamp]
  rcases lt_or_le x 0 with hx | hx
  · -- negative sample: scaled by 0x8000, truncation is the ceiling
    rw [if_pos hx, truncToZero_of_neg (by nlinarith)]
    set n : ℤ := ⌈x * 32768⌉ with hn
    have hle : x * 32768 ≤ (n : ℚ) := Int.le_ceil _
    have hlt : (n : ℚ) < x * 32768 + 1 := Int.ceil_lt_add_one _
    rcases lt_or_le n 0 with hneg | hnonneg
    · rw [sampleOfInt16, if_pos hneg]
      have hn' : (n : ℚ) < 0 := by exact_mod_cast hneg
      rw [abs_le]
      constructor <;> nlinarith
    · -- a ceiling of a negative number that is also ≥ 0 must be 0
      have hzero : n = 0 :=
        le_antisymm (Int.ceil_le.mpr (by push_cast; nlinarith)) hnonneg
      have hgt : (0 : ℚ) < x * 32768 + 1 := by
        rw [hzero] at hlt
        push_cast at hlt
        linarith
      rw [sampleOfInt16, hzero]
      simp only [lt_self_iff_false, if_false, Int.cast_zero, zero_div, zero_sub, abs_neg,
        abs_of_neg hx]
      linarith
  · -- non-negative sample: scaled by 0x7fff, truncation is the floor
    rw [if_neg (not_lt.mpr (by nlinarith)), truncToZero_of_nonneg (by nlinarith)]
    set n : ℤ := ⌊x * 32767⌋ with hn
    have hle : (n : ℚ) ≤ x * 32767 := Int.floor_le _
    have hlt : x * 32767 < (n : ℚ) + 1 := Int.lt_floor_add_one _
    have hnonneg : 0 ≤ n := Int.floor_nonneg.mpr (by nlinarith)
    rw [sampleOfInt16, if_neg (not_lt.mpr hnonneg)]
    rw [abs_le]
    constructor <;> nlinarith

/-- Witness for C2 at the concrete sample 7/10. -/
theorem roundTrip_error_le_witness :
    -1 ≤ (7 : ℚ) / 10 ∧ (7 : ℚ) / 10 ≤ 1 ∧
      |sampleOfInt16 (int16OfSample ((7 : ℚ) / 10)) - (7 : ℚ) / 10| ≤ 1 / 32767 :=
  ⟨by norm_num, by norm_num,
    roundTrip_error_le ((7 : ℚ) / 10) (by norm_num) (by norm_num)⟩

/-- C3 counterexample: at the in-range sample 0.7 the code's encoder
(which stores into an `Int16Array`, truncating toward zero) yields 22936,
while the claimed clamp-scale-round-to-nearest encoder yields 22937
(0.7 · 32767 = 22936.9). -/
theorem encode_truncates_not_rounds :
    float32ToInt16 [(7 : ℚ) / 10] = [22936] ∧
      float32ToInt16Rounded [(7 : ℚ) / 10] = [22937] := by
  have hclamp : max (-1 : ℚ) (min 1 (7 / 10)) = 7 / 10 := by
    rw [min_eq_right (by norm_num), max_eq_right (by norm_num)]
  constructor
  · have : int16OfSample ((7 : ℚ) / 10) = 22936 := by
      rw [int16OfSample]
      simp only [hclamp, if_neg (by norm_num : ¬ ((7 : ℚ) / 10 < 0))]
      rw [truncToZero_of_nonneg (by norm_num), Int.floor_eq_iff]
      norm_num
    simp [float32ToInt16, this]
  · have : int16OfSampleRounded ((7 : ℚ) / 10) = 22937 := by
      rw [int16OfSampleRounded]
      simp only [hclamp, if_neg (by norm_num : ¬ ((7 : ℚ) / 10 < 0))]
      rw [round_eq, Int.floor_eq_iff]
      norm_num
    simp [float32ToInt16Rounded, this]

lemma int16OfSample_eq_floor_ceil (x : ℚ) :
    int16OfSample x =
      if max (-1) (min 1 x) < 0 then ⌈max (-1) (min 1 x) * 32768⌉
      else ⌊max (-1) (min 1 x) * 32767⌋ := by
  rw [int16OfSample]
  rcases lt_or_le (max (-1) (min 1 x)) 0 with h | h
  · rw [if_pos h, if_pos h, truncToZero_of_neg (by nlinarith)]
  · rw [if_neg (not_lt.mpr h), if_neg (not_lt.mpr h),
      truncToZero_of_nonneg (by nlinarith)]

/-- C3 amended: the encoder is length-preserving and samplewise clamps to
[-1, 1], scales negative samples by 0x8000 and non-negative ones by
0x7fff, and truncates toward zero (ceiling below zero, floor above) —
not round-to-nearest. -/
theorem encode_clamps_scales_truncates (xs : List ℚ) :
    (float32ToInt16 xs).length = xs.length ∧
      ∀ i : ℕ,
        (float32ToInt16 xs)[i]? =
          (xs[i]?).map fun x =>
            if max (-1) (min 1 x) < 0 then ⌈max (-1) (min 1 x) * 32768⌉
            else ⌊max (-1) (min 1 x) * 32767⌋ := by
  induction xs with
  | nil => exact ⟨rfl, fun i => rfl⟩
  | cons x xs ih =>
      refine ⟨by simpa [float32ToInt16] using ih.1, fun i => ?_⟩
      cases i with
      | zero => simp [float32ToInt16, int16OfSample_eq_floor_ceil]
      | succ j => simpa [float32ToInt16] using ih.2 j

lemma decodedArrivals_cons (e : Event) (es : List Event) :
    decodedArrivals (e :: es) = decodedArrivals [e] ++ decodedArrivals es := by
  cases e <;> simp [decodedArrivals]

lemma steadyStep_preserves (s : ClientState) (e : Event) (hs : DrainInv s)
    (he : steadyEvent e = true) :
    DrainInv (step s e) ∧
      (step s e).rendered ++ (step s e).audioQueue =
        s.rendered ++ s.audioQueue ++ decodedArrivals [e] := by
  cases e with
  | msgArrive b =>
      cases hp : s.isPlaying with
      | true =>
          have hne : s.inFlight ≠ [] := hs.playing.mp hp
          have hstep : step s (.msgArrive b) =
              { s with audioQueue := s.audioQueue ++ [int16ToFloat32 b] } := by
            simp [step, startDrain, hs.ws, hs.cap, hs.ctx, hp]
          rw [hstep]
          exact ⟨⟨hs.ws, hs.ctx, hs.cap, hs.flight, hp ▸ hs.playing,
              fun hh => absurd hh hne⟩,
            by simp [decodedArrivals]⟩
      | false =>
          have hfl : s.inFlight = [] := by
            by_contra hne
            have := hs.playing.mpr hne
            rw [hp] at this
            simp at this
          have hq : s.audioQueue = [] := hs.queueEmpty hfl
          have hstep : step s (.msgArrive b) =
              { s with
                audioQueue := []
                rendered := s.rendered ++ [int16ToFloat32 b]
                inFlight := [false]
                isPlaying := true
                isAgentSpeaking := true } := by
            simp [step, startDrain, loopStep, hs.ws, hs.cap, hs.ctx, hp, hfl, hq]
          rw [hstep]
          exact ⟨⟨hs.ws, hs.ctx, hs.cap, Or.inr rfl, by simp,
              fun hh => absurd hh (by simp)⟩,
            by simp [hq, decodedArrivals]⟩
  | renderFinished i =>
      rcases hs.flight with hfl | hfl
      · have hstep : step s (.renderFinished i) = s := by simp [step, hfl]
        rw [hstep]
        exact ⟨hs, by simp [decodedArrivals]⟩
      · have hp : s.isPlaying = true := hs.playing.mpr (by simp [hfl])
        cases i with
        | zero =>
            cases hq : s.audioQueue with
            | nil =>
                have hstep : step s (.renderFinished 0) =
                    { s with
                      inFlight := []
                      isPlaying := false
                      isAgentSpeaking := false } := by
                  simp [step, loopStep, exitLoop, hfl, hq]
                rw [hstep]
                exact ⟨⟨hs.ws, hs.ctx, hs.cap, Or.inl rfl, by simp, fun _ => hq⟩,
                  by simp [hq, decodedArrivals]⟩
            | cons bq rest =>
                have hstep : step s (.renderFinished 0) =
                    { s with
                      audioQueue := rest
                      rendered := s.rendered ++ [bq]
                      inFlight := [false] } := by
                  simp [step, loopStep, exitLoop, hfl, hq, hs.ctx]
                rw [hstep]
                exact ⟨⟨hs.ws, hs.ctx, hs.cap, Or.inr rfl, by simp [hp],
                    fun hh => absurd hh (by simp)⟩,
                  by simp [hq, decodedArrivals]⟩
        | succ j =>
            have hstep : step s (.renderFinished (j + 1)) = s := by simp [step, hfl]
            rw [hstep]
            exact ⟨hs, by simp [decodedArrivals]⟩
  | captureBlock xs =>
      cases hm : s.capturedMuted with
      | true =>
          have hstep : step s (.captureBlock xs) = s := by simp [step, hm]
          rw [hstep]
          exact ⟨hs, by simp [decodedArrivals]⟩
      | false =>
          have hstep : step s (.captureBlock xs) =
              { s with
                sent := s.sent ++ [float32ToInt16 xs]
                isUserSpeaking := userSpeakingOf xs } := by
            simp [step, hs.ws, hm]
          rw [hstep]
          exact ⟨⟨hs.ws, hs.ctx, hs.cap, hs.flight, hs.playing, hs.queueEmpty⟩,
            by simp [decodedArrivals]⟩
  | toggleMute =>
      have hstep : step s .toggleMute = { s with isMuted := !s.isMuted } := by
        simp [step]
      rw [hstep]
      exact ⟨⟨hs.ws, hs.ctx, hs.cap, hs.flight, hs.playing, hs.queueEmpty⟩,
        by simp [decodedArrivals]⟩
  | toggleSpeaker => simp [steadyEvent] at he
  | disconnect => simp [steadyEvent] at he
  | transportClosed => simp [steadyEvent] at he
  | transportError => simp [steadyEvent] at he

lemma steadyRun (evs : List Event) :
    ∀ s : ClientState, DrainInv s → (∀ e ∈ evs, steadyEvent e = true) →
      DrainInv (run s evs) ∧
        (run s evs).rendered ++ (run s evs).audioQueue =
          s.rendered ++ s.audioQueue ++ decodedArrivals evs := by
  induction evs with
  | nil => intro s hs _; exact ⟨hs, by simp [run, decodedArrivals]⟩
  | cons e es ih =>
      intro s hs h
      have h1 := steadyStep_preserves s e hs (h e (by simp))
      have h2 := ih (step s e) h1.1 fun e' he' => h e' (by simp [he'])
      refine ⟨by simpa [run] using h2.1, ?_⟩
      have hrun : run s (e :: es) = run (step s e) es := by simp [run]
      rw [hrun, h2.2, h1.2, decodedArrivals_cons e es]
      simp [decodedArrivals, List.append_assoc]

lemma connectState_inv (m : Bool) : DrainInv (connectState m false) := by
  constructor <;> simp [connectState]

/-- C1 amended: in a session whose speaker was unmuted at connect time
and in which the speaker-mute button is never pressed and no teardown
occurs, the drain loop renders exactly the inbound blocks in arrival
order — the started renders followed by the still-queued blocks are
precisely the decoded arrivals — and at most one drain-loop instance
(hence at most one render) is ever in flight.  The claim's "including
across speaker-mute toggles" part is false: see the counterexample. -/
theorem drain_renders_in_order (m : Bool) (evs : List Event)
    (h : ∀ e ∈ evs, steadyEvent e = true) :
    (run (connectState m false) evs).rendered ++
        (run (connectState m false) evs).audioQueue = decodedArrivals evs
    ∧ (run (connectState m false) evs).inFlight.length ≤ 1 := by
  have hrun := steadyRun evs (connectState m false) (connectState_inv m) h
  refine ⟨by simpa [connectState] using hrun.2, ?_⟩
  rcases hrun.1.flight with h' | h' <;> simp [h']

/-- Witness for C1's amended theorem on a concrete three-event trace. -/
theorem drain_renders_in_order_witness :
    (∀ e ∈ [Event.msgArrive [1], Event.renderFinished 0, Event.msgArrive [2]],
        steadyEvent e = true)
    ∧ ((run (connectState false false)
          [Event.msgArrive [1], Event.renderFinished 0, Event.msgArrive [2]]).rendered ++
        (run (connectState false false)
          [Event.msgArrive [1], Event.renderFinished 0, Event.msgArrive [2]]).audioQueue =
        decodedArrivals [Event.msgArrive [1], Event.renderFinished 0, Event.msgArrive [2]]
      ∧ (run (connectState false false)
          [Event.msgArrive [1], Event.renderFinished 0, Event.msgArrive [2]]).inFlight.length
          ≤ 1) :=
  ⟨by decide,
    drain_renders_in_order false
      [Event.msgArrive [1], Event.renderFinished 0, Event.msgArrive [2]] (by decide)⟩

/-- C1 counterexample: `toggleSpeaker` resets the `isPlayingRef` guard
while a render is in flight, and the installed message handler calls the
connect-time `playAudioQueue` closure (captured `isSpeakerMuted = false`),
so one message before a mute toggle and one after leave TWO drain-loop
instances awaiting renders at once — two blocks render concurrently. -/
theorem drain_guard_fails_across_speaker_toggle :
    (run (connectState false false)
      [Event.msgArrive [1], Event.toggleSpeaker, Event.msgArrive [2]]).inFlight.length = 2 := by
  simp [run, step, startDrain, loopStep, exitLoop, connectState, int16ToFloat32, sampleOfInt16]

lemma capture_muted_noop (s : ClientState) (xs : List ℚ)
    (hm : s.capturedMuted = true) :
    step s (.captureBlock xs) = s := by
  simp [step, hm]

/-- C4 counterexample: with connect-time `microphoneMuted = true`, a
captured block that is loud enough to classify as speaking produces zero
outbound messages (as claimed) but the activity detector does NOT run —
the RMS computation and `setIsUserSpeaking` sit inside the same
`!isMuted` guard as the send, so `isUserSpeaking` stays false. -/
theorem micMute_skips_activity_detector :
    userSpeakingOf [1, 1] = true
    ∧ (run (connectState true false) [Event.captureBlock [1, 1]]).sent = []
    ∧ (run (connectState true false) [Event.captureBlock [1, 1]]).isUserSpeaking = false := by
  refine ⟨?_, ?_, ?_⟩
  · simp [userSpeakingOf, sumSquares]
    norm_num
  · simp [run, step, connectState]
  · simp [run, step, connectState]

/-- C4 amended: with connect-time `microphoneMuted = true`, N captured
blocks produce zero outbound messages, and the activity detector skips
those blocks as well — the user-speaking classification is never
updated while muted (the capture handler is a no-op). -/
theorem micMute_suppresses_send_and_detection (sp : Bool) (blocks : List (List ℚ)) :
    (run (connectState true sp) (blocks.map Event.captureBlock)).sent = []
    ∧ (run (connectState true sp) (blocks.map Event.captureBlock)).isUserSpeaking = false := by
  have hrun : ∀ bs : List (List ℚ),
      run (connectState true sp) (bs.map Event.captureBlock) = connectState true sp := by
    intro bs
    induction bs with
    | nil => rfl
    | cons b bs ih =>
        have hcons : run (connectState true sp) ((b :: bs).map Event.captureBlock)
            = run (step (connectState true sp) (.captureBlock b))
                (bs.map Event.captureBlock) := by
          simp [run]
        rw [hcons, capture_muted_noop _ _ rfl, ih]
  rw [hrun blocks]
  exact ⟨rfl, rfl⟩

/-- C5 counterexample: with `speakerMuted` true from connect time on, an
inbound binary message is NOT discarded — `ws.onmessage` has no mute
check, so the decoded block is appended to the playback queue (length
becomes 1); the mute only prevents the drain loop from starting. -/
theorem speakerMuted_message_still_queued :
    (run (connectState false true) [Event.msgArrive [5]]).audioQueue.length = 1
    ∧ (run (connectState false true) [Event.msgArrive [5]]).rendered.length = 0 := by
  constructor <;>
    simp [run, step, startDrain, connectState, int16ToFloat32, sampleOfInt16]

/-- C5 amended: every inbound binary message is decoded and appended to
the playback queue regardless of `speakerMuted`; a true connect-time
`speakerMuted` (the captured value the installed handler uses) only
prevents the drain loop from starting a render. -/
theorem message_always_enqueued (s : ClientState) (b : List ℤ)
    (hw : s.wsOpen = true) (hc : s.capturedSpeakerMuted = true) :
    (step s (.msgArrive b)).audioQueue = s.audioQueue ++ [int16ToFloat32 b]
    ∧ (step s (.msgArrive b)).rendered = s.rendered := by
  have hstep : step s (.msgArrive b) =
      { s with audioQueue := s.audioQueue ++ [int16ToFloat32 b] } := by
    simp [step, startDrain, hw, hc]
  rw [hstep]
  exact ⟨rfl, rfl⟩

/-- Witness for C5's amended theorem at the connect-time-muted state. -/
theorem message_always_enqueued_witness :
    (connectState false true).wsOpen = true
    ∧ (connectState false true).capturedSpeakerMuted = true
    ∧ ((step (connectState false true) (.msgArrive [5])).audioQueue
          = (connectState false true).audioQueue ++ [int16ToFloat32 [5]]
        ∧ (step (connectState false true) (.msgArrive [5])).rendered
          = (connectState false true).rendered) :=
  ⟨rfl, rfl, message_always_enqueued (connectState false true) [5] rfl rfl⟩

/-- C6 counterexample: after `speakerMuted` is set to true (and never
unset), a message arriving while muted still starts a render: the
installed handler calls the connect-time `playAudioQueue` closure, whose
captured `isSpeakerMuted` is false.  Playback resumes with no unmute,
refuting "playback resumes only with frames that arrive after the
unmute". -/
theorem playback_resumes_while_muted :
    (run (connectState false false)
        [Event.msgArrive [1], Event.toggleSpeaker, Event.msgArrive [2]]).isSpeakerMuted = true
    ∧ (run (connectState false false)
        [Event.msgArrive [1], Event.toggleSpeaker, Event.msgArrive [2]]).rendered.length = 2 := by
  constructor <;>
    simp [run, step, startDrain, loopStep, exitLoop, connectState,
      int16ToFloat32, sampleOfInt16]

/-- C6 amended: setting `speakerMuted := true` empties the queue (none
of the queued blocks is ever rendered), synchronously resets the
agent-speaking flag and the playing guard, starts no render itself and
leaves any in-flight render to finish; but blocks arriving while muted
are still enqueued and rendered by the connect-time message handler, so
playback does not wait for an unmute. -/
theorem speakerMute_clears_queue (s : ClientState) (h : s.isSpeakerMuted = false) :
    (step s .toggleSpeaker).audioQueue = []
    ∧ (step s .toggleSpeaker).isAgentSpeaking = false
    ∧ (step s .toggleSpeaker).isPlaying = false
    ∧ (step s .toggleSpeaker).rendered = s.rendered
    ∧ (step s .toggleSpeaker).inFlight = s.inFlight
    ∧ (step s .toggleSpeaker).isSpeakerMuted = true := by
  have hstep : step s .toggleSpeaker =
      { s with
        isSpeakerMuted := true
        audioQueue := []
        isPlaying := false
        isAgentSpeaking := false } := by
    simp [step, h]
  rw [hstep]
  exact ⟨rfl, rfl, rfl, rfl, rfl, rfl⟩

/-- Witness for C6's amended theorem at a state with one block queued
and one render in flight. -/
theorem speakerMute_clears_queue_witness :
    (run (connectState false false)
        [Event.msgArrive [1], Event.msgArrive [2]]).isSpeakerMuted = false
    ∧ ((step (run (connectState false false)
          [Event.msgArrive [1], Event.msgArrive [2]]) .toggleSpeaker).audioQueue = []
      ∧ (step (run (connectState false false)
          [Event.msgArrive [1], Event.msgArrive [2]]) .toggleSpeaker).isAgentSpeaking = false
      ∧ (step (run (connectState false false)
          [Event.msgArrive [1], Event.msgArrive [2]]) .toggleSpeaker).isPlaying = false
      ∧ (step (run (connectState false false)
          [Event.msgArrive [1], Event.msgArrive [2]]) .toggleSpeaker).rendered =
          (run (connectState false false)
            [Event.msgArrive [1], Event.msgArrive [2]]).rendered
      ∧ (step (run (connectState false false)
          [Event.msgArrive [1], Event.msgArrive [2]]) .toggleSpeaker).inFlight =
          (run (connectState false false)
            [Event.msgArrive [1], Event.msgArrive [2]]).inFlight
      ∧ (step (run (connectState false false)
          [Event.msgArrive [1], Event.msgArrive [2]]) .toggleSpeaker).isSpeakerMuted = true) :=
  ⟨by simp [run, step, startDrain, loopStep, connectState, int16ToFloat32, sampleOfInt16],
    speakerMute_clears_queue _
      (by simp [run, step, startDrain, loopStep, connectState, int16ToFloat32, sampleOfInt16])⟩

lemma teardown_step_eq_cleanup (e : Event) (he : isTeardown e = true)
    (t : ClientState) : step t e = cleanup t := by
  cases e <;> first | rfl | simp [isTeardown] at he

/-- C7 confirmed: teardown is idempotent.  Every cleanup path (explicit
`disconnect()`, `ws.onclose`, `ws.onerror`) runs the same total `cleanup`
function (no throw is possible: every handle access is null-guarded in
the source, modelled by the if-guards), a second teardown is the
identity, each held handle is closed exactly once (the close/stop
counters grow by exactly one per held handle and only on the first
call), and the state ends disconnected and idle. -/
theorem teardown_idempotent (s : ClientState) (e₁ e₂ : Event)
    (h₁ : isTeardown e₁ = true) (h₂ : isTeardown e₂ = true) :
    step (step s e₁) e₂ = step s e₁
    ∧ (step s e₁).wsCloseCount = s.wsCloseCount + (if s.wsRefSome then 1 else 0)
    ∧ (step s e₁).trackStopCount = s.trackStopCount + (if s.streamSome then 1 else 0)
    ∧ (step s e₁).ctxCloseCount = s.ctxCloseCount + (if s.ctxSome then 1 else 0)
    ∧ (step s e₁).isConnected = false ∧ (step s e₁).isConnecting = false
    ∧ (step s e₁).wsRefSome = false ∧ (step s e₁).streamSome = false
    ∧ (step s e₁).ctxSome = false := by
  rw [teardown_step_eq_cleanup e₁ h₁ s, teardown_step_eq_cleanup e₂ h₂ (cleanup s)]
  refine ⟨?_, ?_, ?_, ?_, rfl, rfl, rfl, rfl, rfl⟩
  · simp [cleanup]
  · cases hw : s.wsRefSome <;> simp [cleanup, hw]
  · cases hw : s.streamSome <;> simp [cleanup, hw]
  · cases hw : s.ctxSome <;> simp [cleanup, hw]

/-- Witness for C7 at a fresh session torn down by a transport error and
then an explicit disconnect. -/
theorem teardown_idempotent_witness :
    isTeardown Event.transportError = true
    ∧ isTeardown Event.disconnect = true
    ∧ (step (step (connectState false false) Event.transportError) Event.disconnect
          = step (connectState false false) Event.transportError
      ∧ (step (connectState false false) Event.transportError).wsCloseCount
          = (connectState false false).wsCloseCount
            + (if (connectState false false).wsRefSome then 1 else 0)
      ∧ (step (connectState false false) Event.transportError).trackStopCount
          = (connectState false false).trackStopCount
            + (if (connectState false false).streamSome then 1 else 0)
      ∧ (step (connectState false false) Event.transportError).ctxCloseCount
          = (connectState false false).ctxCloseCount
            + (if (connectState false false).ctxSome then 1 else 0)
      ∧ (step (connectState false false) Event.transportError).isConnected = false
      ∧ (step (connectState false false) Event.transportError).isConnecting = false
      ∧ (step (connectState false false) Event.transportError).wsRefSome = false
      ∧ (step (connectState false false) Event.transportError).streamSome = false
      ∧ (step (connectState false false) Event.transportError).ctxSome = false) :=
  ⟨rfl, rfl,
    teardown_idempotent (connectState false false) Event.transportError Event.disconnect
      rfl rfl⟩

/-- C8 counterexample: a session whose mute buttons were both toggled on
is torn down; `cleanup` does not touch either mute flag, so after the
teardown `isMuted` and `isSpeakerMuted` are both still true, not reset
to their defaults. -/
theorem teardown_keeps_mute_flags_cex :
    (run (connectState false false)
        [Event.toggleMute, Event.toggleSpeaker, Event.disconnect]).isMuted = true
    ∧ (run (connectState false false)
        [Event.toggleMute, Event.toggleSpeaker, Event.disconnect]).isSpeakerMuted = true := by
  constructor <;> simp [run, step, cleanup, connectState]

/-- C8 amended: every teardown path from a connected state stops the
capture pipeline and playback (handles released, socket closed, queue
cleared, playing guard reset) and returns the controller to the
disconnected idle state, but it does NOT reset the mute flags:
`microphoneMuted` and `speakerMuted` keep their values across teardown. -/
theorem teardown_releases_but_keeps_mute (s : ClientState) (e : Event)
    (h : isTeardown e = true) :
    (step s e).isMuted = s.isMuted
    ∧ (step s e).isSpeakerMuted = s.isSpeakerMuted
    ∧ (step s e).audioQueue = [] ∧ (step s e).isPlaying = false
    ∧ (step s e).wsRefSome = false ∧ (step s e).streamSome = false
    ∧ (step s e).ctxSome = false ∧ (step s e).wsOpen = false
    ∧ (step s e).isConnected = false ∧ (step s e).isConnecting = false := by
  rw [teardown_step_eq_cleanup e h s]
  exact ⟨rfl, rfl, rfl, rfl, rfl, rfl, rfl, rfl, rfl, rfl⟩

/-- Witness for C8's amended theorem: a transport-closed teardown of a
session that muted its microphone mid-call. -/
theorem teardown_releases_but_keeps_mute_witness :
    isTeardown Event.transportClosed = true
    ∧ ((step (run (connectState false false) [Event.toggleMute])
          Event.transportClosed).isMuted
        = (run (connectState false false) [Event.toggleMute]).isMuted
      ∧ (step (run (connectState false false) [Event.toggleMute])
          Event.transportClosed).isSpeakerMuted
        = (run (connectState false false) [Event.toggleMute]).isSpeakerMuted
      ∧ (step (run (connectState false false) [Event.toggleMute])
          Event.transportClosed).audioQueue = []
      ∧ (step (run (connectState false false) [Event.toggleMute])
          Event.transportClosed).isPlaying = false
      ∧ (step (run (connectState false false) [Event.toggleMute])
          Event.transportClosed).wsRefSome = false
      ∧ (step (run (connectState false false) [Event.toggleMute])
          Event.transportClosed).streamSome = false
      ∧ (step (run (connectState false false) [Event.toggleMute])
          Event.transportClosed).ctxSome = false
      ∧ (step (run (connectState false false) [Event.toggleMute])
          Event.transportClosed).wsOpen = false
      ∧ (step (run (connectState false false) [Event.toggleMute])
          Event.transportClosed).isConnected = false
      ∧ (step (run (connectState false false) [Event.toggleMute])
          Event.transportClosed).isConnecting = false) :=
  ⟨rfl, teardown_releases_but_keeps_mute
      (run (connectState false false) [Event.toggleMute]) Event.transportClosed rfl⟩

/-- C9 counterexample: a silent inbound block (RMS 0, far below the 0.01
threshold) is rendered, and the agent-speaking flag is set to true
anyway: rendered blocks are never RMS-classified — the drain loop sets
the flag for its whole lifetime regardless of content. -/
theorem rendered_block_not_rms_classified :
    (run (connectState false false) [Event.msgArrive [0, 0]]).isAgentSpeaking = true
    ∧ userSpeakingOf (int16ToFloat32 [0, 0]) = false := by
  constructor
  · simp [run, step, startDrain, loopStep, connectState, int16ToFloat32, sampleOfInt16]
  · simp [userSpeakingOf, sumSquares, int16ToFloat32, sampleOfInt16]

/-- C9 amended: RMS classification happens only on the capture side, and
only while the socket is open and the connect-time `microphoneMuted` is
false: such a block sets the user-speaking flag to exactly
"RMS > 0.01" and is sent encoded, and the detector is purely
observational there (queue and render trace untouched).  Rendered
blocks are not RMS-classified at all (see the counterexample). -/
theorem activity_detection_on_capture (s : ClientState) (xs : List ℚ)
    (hw : s.wsOpen = true) (hm : s.capturedMuted = false) :
    (step s (.captureBlock xs)).isUserSpeaking = userSpeakingOf xs
    ∧ (step s (.captureBlock xs)).sent = s.sent ++ [float32ToInt16 xs]
    ∧ (step s (.captureBlock xs)).audioQueue = s.audioQueue
    ∧ (step s (.captureBlock xs)).rendered = s.rendered := by
  have hstep : step s (.captureBlock xs) =
      { s with
        sent := s.sent ++ [float32ToInt16 xs]
        isUserSpeaking := userSpeakingOf xs } := by
    simp [step, hw, hm]
  rw [hstep]
  exact ⟨rfl, rfl, rfl, rfl⟩

/-- Witness for C9's amended theorem on a loud block in a fresh unmuted
session. -/
theorem activity_detection_on_capture_witness :
    (connectState false false).wsOpen = true
    ∧ (connectState false false).capturedMuted = false
    ∧ ((step (connectState false false) (.captureBlock [1, 1])).isUserSpeaking
          = userSpeakingOf [1, 1]
      ∧ (step (connectState false false) (.captureBlock [1, 1])).sent
          = (connectState false false).sent ++ [float32ToInt16 [1, 1]]
      ∧ (step (connectState false false) (.captureBlock [1, 1])).audioQueue
          = (connectState false false).audioQueue
      ∧ (step (connectState false false) (.captureBlock [1, 1])).rendered
          = (connectState false false).rendered) :=
  ⟨rfl, rfl, activity_detection_on_capture (connectState false false) [1, 1] rfl rfl⟩

lemma mutFlip_cons (b : Bool) (e : Event) (es : List Event) :
    mutFlip b (e :: es) = mutFlip (mutAfter e b) es := by
  cases e <;> rfl

lemma step_isMuted_update (s : ClientState) (b : Bool) (e : Event) :
    step { s with isMuted := b } e = { step s e with isMuted := mutAfter e b } := by
  cases e with
  | msgArrive m =>
      by_cases hw : s.wsOpen = true
      · by_cases hp : s.isPlaying = true
        · simp [step, startDrain, mutAfter, hw, hp]
        · cases hq : s.audioQueue with
          | nil =>
              cases hctx : s.ctxSome <;> cases hcap : s.capturedSpeakerMuted <;>
                simp [step, startDrain, loopStep, exitLoop, mutAfter, hw, hp, hq, hctx, hcap]
          | cons x rest =>
              cases hctx : s.ctxSome <;> cases hcap : s.capturedSpeakerMuted <;>
                simp [step, startDrain, loopStep, exitLoop, mutAfter, hw, hp, hq, hctx, hcap]
      · simp [step, mutAfter, hw]
  | renderFinished i =>
      cases hf : s.inFlight[i]? with
      | none => simp [step, mutAfter, hf]
      | some c =>
          cases c with
          | true => simp [step, loopStep, exitLoop, mutAfter, hf]
          | false =>
              cases hq : s.audioQueue with
              | nil => simp [step, loopStep, exitLoop, mutAfter, hf, hq]
              | cons x rest =>
                  cases hctx : s.ctxSome <;>
                    simp [step, loopStep, exitLoop, mutAfter, hf, hq, hctx]
  | captureBlock xs =>
      cases hc : s.wsOpen && !s.capturedMuted with
      | true => simp [step, mutAfter, hc]
      | false => simp [step, mutAfter, hc]
  | toggleMute => rfl
  | toggleSpeaker => cases hsp : s.isSpeakerMuted <;> simp [step, mutAfter, hsp]
  | disconnect => rfl
  | transportClosed => rfl
  | transportError => rfl

lemma run_isMuted_update (evs : List Event) :
    ∀ (s : ClientState) (b : Bool),
      run { s with isMuted := b } evs = { run s evs with isMuted := mutFlip b evs } := by
  induction evs with
  | nil => intro s b; rfl
  | cons e es ih =>
      intro s b
      have h1 : run { s with isMuted := b } (e :: es)
          = run (step { s with isMuted := b } e) es := by simp [run]
      have h2 : run s (e :: es) = run (step s e) es := by simp [run]
      rw [h1, h2, step_isMuted_update, ih (step s e) (mutAfter e b), mutFlip_cons]

/-- C10 amended, in two parts.  (1) Microphone: the installed capture
callback closed over the connect-time `isMuted`, so toggling the
microphone-mute button anywhere after connect changes nothing the
handlers can observe — the run with the toggle inserted has the same
outbound message sequence, the same render trace, the same queue, the
same in-flight renders and the same speaking flags as the run without
it.  (2) Speaker: the playback-start gate likewise evaluates only the
connect-time captured `isSpeakerMuted` — the message handler's behaviour
is unchanged by any current value of the flag.  The claim's further
consequence — identical playback-start decisions when `toggleSpeaker`
itself is pressed — is false, because the toggle also clears the shared
queue and playing-guard refs (see the counterexample). -/
theorem connect_time_flags_govern_handlers (m sp : Bool) (evs₁ evs₂ : List Event) :
    ((run (connectState m sp) (evs₁ ++ Event.toggleMute :: evs₂)).sent
        = (run (connectState m sp) (evs₁ ++ evs₂)).sent
      ∧ (run (connectState m sp) (evs₁ ++ Event.toggleMute :: evs₂)).rendered
        = (run (connectState m sp) (evs₁ ++ evs₂)).rendered
      ∧ (run (connectState m sp) (evs₁ ++ Event.toggleMute :: evs₂)).audioQueue
        = (run (connectState m sp) (evs₁ ++ evs₂)).audioQueue
      ∧ (run (connectState m sp) (evs₁ ++ Event.toggleMute :: evs₂)).inFlight
        = (run (connectState m sp) (evs₁ ++ evs₂)).inFlight
      ∧ (run (connectState m sp) (evs₁ ++ Event.toggleMute :: evs₂)).isUserSpeaking
        = (run (connectState m sp) (evs₁ ++ evs₂)).isUserSpeaking
      ∧ (run (connectState m sp) (evs₁ ++ Event.toggleMute :: evs₂)).isAgentSpeaking
        = (run (connectState m sp) (evs₁ ++ evs₂)).isAgentSpeaking)
    ∧ ∀ (t : ClientState) (v : Bool) (bb : List ℤ),
        step { t with isSpeakerMuted := v } (.msgArrive bb)
          = { step t (.msgArrive bb) with isSpeakerMuted := v } := by
  constructor
  · have h1 : run (connectState m sp) (evs₁ ++ Event.toggleMute :: evs₂)
        = run (step (run (connectState m sp) evs₁) Event.toggleMute) evs₂ := by
      simp [run, List.foldl_append]
    have h2 : run (connectState m sp) (evs₁ ++ evs₂)
        = run (run (connectState m sp) evs₁) evs₂ := by
      simp [run, List.foldl_append]
    have h3 : step (run (connectState m sp) evs₁) Event.toggleMute
        = { run (connectState m sp) evs₁ with
            isMuted := !(run (connectState m sp) evs₁).isMuted } := rfl
    rw [h1, h2, h3, run_isMuted_update evs₂ (run (connectState m sp) evs₁)]
    exact ⟨rfl, rfl, rfl, rfl, rfl, rfl⟩
  · intro t v bb
    by_cases hw : t.wsOpen = true
    · by_cases hp : t.isPlaying = true
      · simp [step, startDrain, hw, hp]
      · cases hq : t.audioQueue with
        | nil =>
            cases hctx : t.ctxSome <;> cases hcap : t.capturedSpeakerMuted <;>
              simp [step, startDrain, loopStep, exitLoop, hw, hp, hq, hctx, hcap]
        | cons x rest =>
            cases hctx : t.ctxSome <;> cases hcap : t.capturedSpeakerMuted <;>
              simp [step, startDrain, loopStep, exitLoop, hw, hp, hq, hctx, hcap]
    · simp [step, hw]

/-- C10 counterexample: two runs of one session identical except that the
second toggles `speakerMuted` after connect make different
playback-start decisions — the first starts one render (the second
message queues behind the in-flight one), the second starts two, because
`toggleSpeaker` resets the shared playing guard. -/
theorem speaker_toggle_changes_playback :
    (run (connectState false false)
        [Event.msgArrive [1], Event.msgArrive [2]]).rendered.length = 1
    ∧ (run (connectState false false)
        [Event.msgArrive [1], Event.toggleSpeaker, Event.msgArrive [2]]).rendered.length = 2 := by
  constructor <;>
    simp [run, step, startDrain, loopStep, connectState, int16ToFloat32, sampleOfInt16]

end VoiceClient
